import Mathlib

/-!
Verification of `library/ceph_key.py` from ceph-ansible, a module that manages
CephX authentication keys by building and executing `ceph` / `ceph-authtool`
command lines.

The embedding renders the module's pure command-building functions as Lean
functions, and the effectful dispatcher `run_module` as a function from an
oracle environment `Env` (subprocess execution, JSON parsing, filesystem and
account lookups, clock and randomness) and a parameter record `Params` to an
`Outcome` (the module's terminal report) paired with the list of external
commands actually executed, in order.

Python name resolution matters here: the source reads several names that are
bound nowhere in the module (`container_image`, `base_cmd`, and `module`
inside `lookup_ceph_initial_entities`).  Such reads are modelled by
`pyFreeVar`, which checks the name against an explicit transcription of each
function's local names and of the module's global names; an unbound read
produces `PyErr.nameError`.  Reads of a function-local variable on a path
where it was never assigned (`rc` in `run_module`) produce
`PyErr.unboundLocal`.  Byte strings are modelled as `String`, machine
integers as `Int`/`Nat`; Python's `struct.pack` raises for out-of-range
values of its fixed-width fields, which is not modelled (the encoders wrap
modulo 2^(8*width)), so theorems about `generate_secret` carry range
hypotheses keeping the model exact.  The Python field `import_key` is
rendered `importKey`.
-/

namespace CephKey

abbrev Cmd := List String

/-- Python exceptions that the module can raise. -/
inductive PyErr where
  | nameError (n : String)
  | unboundLocal (n : String)
  | typeError (msg : String)
  | attrError (msg : String)
  | indexError (msg : String)
  | keyError (msg : String)
  | exception (msg : String)
deriving DecidableEq

/-- The observable fields of the module's result dict (timestamps omitted).
The initial dict sets `rc` to the empty string, modelled as `none`. -/
structure ResultDict where
  changed : Bool
  stdout : String
  stderr : String
  rc : Option Int
  cmd : Option Cmd
deriving DecidableEq

/-- How one invocation of the module terminates: a successful `exit_json`, a
`fail_json`, or an uncaught Python exception. -/
inductive Outcome where
  | exited (r : ResultDict)
  | failed (msg : String) (rc : Int) (r : Option ResultDict)
  | raised (e : PyErr)
deriving DecidableEq

/-- Values produced by `json.loads`. -/
inductive PyJson where
  | str (s : String)
  | num (n : Int)
  | bool (b : Bool)
  | null
  | arr (xs : List PyJson)
  | obj (kvs : List (String × PyJson))

/-- The module's recognized parameters.  `caps` is an insertion-ordered dict
rendered as an association list; `none` models an absent optional value. -/
structure Params where
  cluster : String
  name : String
  state : String
  containerized : Option String
  caps : Option (List (String × String))
  secret : Option String
  importKey : Bool
  dest : String

/-- The oracle environment: everything outside the module's own code.
`run` models `module.run_command` (deterministic within one invocation);
`jsonLoads` models the opaque JSON parser; `isfile`, `chownOk`,
`pwnam_ceph`, `grnam_ceph` model filesystem and account lookups; `time` and
`urandom16` model the clock and `os.urandom(16)`. -/
structure Env where
  run : Cmd → Int × String × String
  jsonLoads : String → Option PyJson
  hostname : String
  isfile : String → Bool
  chownOk : String → Bool
  pwnam_ceph : Bool
  grnam_ceph : Bool
  time : Nat
  urandom16 : List Nat

/-- Python truthiness of an optional string: `None` and `""` are falsy. -/
def strFalsy : Option String → Bool
  | none => true
  | some s => s.isEmpty

/-- Python truthiness of the optional caps dict: `None` and `{}` are falsy. -/
def capsFalsy : Option (List (String × String)) → Bool
  | none => true
  | some l => l.isEmpty

/-- Python's `s.rstrip("\r\n")`: drop trailing CR and LF characters. -/
def rstripCRLF (s : String) : String :=
  String.mk (s.data.reverse.dropWhile (fun c => c == '\r' || c == '\n')).reverse

/-- Python's `s.split()` with no argument: split on whitespace runs,
discarding empty pieces. -/
def pySplitWS (s : String) : List String :=
  (s.split fun c => c.isWhitespace).filter (fun t => !t.isEmpty)

/-- Does `sub` occur at the head of `s`? -/
def sub_at : List Char → List Char → Bool
  | [], _ => true
  | _ :: _, [] => false
  | a :: as, b :: bs => a == b && sub_at as bs

/-- Does `sub` occur anywhere in `s`? -/
def has_sub (sub : List Char) : List Char → Bool
  | [] => sub.isEmpty
  | c :: cs => sub_at sub (c :: cs) || has_sub sub cs

/-- Python's `sub in s` on strings: substring test. -/
def pyInStr (sub s : String) : Bool :=
  has_sub sub.data s.data

/-- Python's `s.split(sep)` for a one-character separator. -/
def py_split_char (sep : Char) : List Char → List (List Char)
  | [] => [[]]
  | c :: cs =>
    if c == sep then [] :: py_split_char sep cs
    else
      match py_split_char sep cs with
      | [] => [[c]]
      | g :: gs => (c :: g) :: gs

/-- Python's `entity.split('.')`. -/
def py_split_dot (s : String) : List String :=
  (py_split_char '.' s.data).map String.mk

/-- The names bound at module scope in `ceph_key.py`: top-level assignments,
imported modules and function definitions.  Neither `container_image` nor
`base_cmd` nor (at module scope) `module` appears. -/
def module_globals : List String :=
  ["ANSIBLE_METADATA", "DOCUMENTATION", "EXAMPLES", "RETURN", "AnsibleModule",
   "datetime", "grp", "json", "os", "pwd", "stat", "struct", "time", "base64",
   "socket", "CEPH_INITIAL_KEYS", "fatal", "generate_secret", "generate_caps",
   "generate_ceph_cmd", "generate_ceph_authtool_cmd", "create_key",
   "update_key", "delete_key", "info_key", "list_keys", "exec_commands",
   "lookup_ceph_initial_entities", "build_key_path", "run_module", "main",
   "absolute_import", "division", "print_function", "__metaclass__"]

/-- Local names of `run_module`: every name assigned anywhere in its body. -/
def run_module_locals : List String :=
  ["module_args", "module", "state", "name", "cluster", "containerized",
   "caps", "secret", "import_key", "dest", "result", "startd", "user",
   "user_key", "output_format", "rc", "cmd", "out", "err", "file_path",
   "file_args", "hostname", "entities", "ceph_uid", "ceph_grp", "entity",
   "key_path", "extra_args", "info_cmd", "endd", "delta"]

/-- Local names of `create_key`: its parameters and assigned variables. -/
def create_key_locals : List String :=
  ["module", "result", "cluster", "name", "secret", "caps", "import_key",
   "auid", "dest", "containerized", "file_path", "args", "cmd_list", "user",
   "user_key"]

/-- Local names of `generate_ceph_authtool_cmd`. -/
def authtool_locals : List String :=
  ["cluster", "name", "secret", "caps", "auid", "dest", "containerized",
   "file_destination", "cmd"]

/-- Local names of `lookup_ceph_initial_entities`. -/
def lookup_locals : List String :=
  ["out", "out_dict", "e", "entities", "key", "k", "v"]

/-- Resolution of a Python name read: locals, then module globals (none of
the names at issue are builtins).  A bound name's value is opaque to this
model (`none` stands in); an unbound name raises `NameError`. -/
def pyFreeVar (locals : List String) (n : String) : Except PyErr (Option String) :=
  if n ∈ locals ∨ n ∈ module_globals then .ok none
  else .error (.nameError n)

/-- The fixed list of initial entity names (`CEPH_INITIAL_KEYS`). -/
def CEPH_INITIAL_KEYS : List String :=
  ["client.admin", "client.bootstrap-mds", "client.bootstrap-mgr",
   "client.bootstrap-osd", "client.bootstrap-rbd",
   "client.bootstrap-rbd-mirror", "client.bootstrap-rgw"]

/-- The `fatal` helper: with a truthy `module` it calls
`module.fail_json(msg=message, rc=1)`, otherwise it raises `Exception`. -/
def fatal (message : String) (moduleTruthy : Bool) : Outcome :=
  if moduleTruthy then .failed message 1 none else .raised (.exception message)

/-- Little-endian byte encoding of `n` into `width` bytes (values are taken
modulo 2^(8*width); the source's `struct.pack` would instead raise out of
range, a case no theorem relies on). -/
def le_bytes (width n : Nat) : List Nat :=
  match width with
  | 0 => []
  | w + 1 => n % 256 :: le_bytes w (n / 256)

/-- The layout of `struct.pack('<hiih', a, b, c, d)`: a 2-byte, a 4-byte,
another 4-byte and a final 2-byte little-endian field. -/
def struct_pack_hiih (a b c d : Nat) : List Nat :=
  le_bytes 2 a ++ le_bytes 4 b ++ le_bytes 4 c ++ le_bytes 2 d

/-- The base64 alphabet. -/
def b64chars : List Char :=
  "ABCDEFGHIJKLMNOPQRSTUVWXYZabcdefghijklmnopqrstuvwxyz0123456789+/".data

/-- Character of a sextet value (defined for inputs below 64). -/
def charOfSextet (n : Nat) : Char := b64chars.getD n '?'

/-- Inverse of `charOfSextet` on the alphabet. -/
def sextetOfChar (c : Char) : Nat := b64chars.findIdx (fun x => x == c)

/-- Regroup bytes into 6-bit values, as base64 encoding does. -/
def toSextets : List Nat → List Nat
  | [] => []
  | [b1] => [b1 / 4, b1 % 4 * 16]
  | [b1, b2] => [b1 / 4, b1 % 4 * 16 + b2 / 16, b2 % 16 * 4]
  | b1 :: b2 :: b3 :: rest =>
    b1 / 4 :: (b1 % 4 * 16 + b2 / 16) :: (b2 % 16 * 4 + b3 / 64) :: b3 % 64 ::
      toSextets rest

/-- Regroup 6-bit values back into bytes, as base64 decoding does. -/
def fromSextets : List Nat → List Nat
  | s1 :: s2 :: s3 :: s4 :: rest =>
    (s1 * 4 + s2 / 16) :: (s2 % 16 * 16 + s3 / 4) :: (s3 % 4 * 64 + s4) ::
      fromSextets rest
  | [s1, s2, s3] => [s1 * 4 + s2 / 16, s2 % 16 * 16 + s3 / 4]
  | [s1, s2] => [s1 * 4 + s2 / 16]
  | _ => []

/-- Padding characters appended by base64 for a trailing group of
`len % 3` bytes. -/
def b64pad : Nat → List Char
  | 1 => ['=', '=']
  | 2 => ['=']
  | _ => []

/-- `base64.b64encode` on a byte list, producing the encoded characters. -/
def b64encode (bs : List Nat) : List Char :=
  (toSextets bs).map charOfSextet ++ b64pad (bs.length % 3)

/-- `base64.b64decode`: drop padding, map characters back to sextets,
regroup into bytes. -/
def b64decode (s : List Char) : List Nat :=
  fromSextets ((s.filter (fun c => c != '=')).map sextetOfChar)

/-- The `generate_secret` fallback: pack a `<hiih` header (format version 1,
timestamp, reserved 0, key length) followed by the 16 random key bytes, and
base64-encode the whole blob. -/
def generate_secret (t : Nat) (key : List Nat) : List Char :=
  b64encode (struct_pack_hiih 1 t 0 key.length ++ key)

/-- The `generate_caps` encoder: for each capability pair with a non-empty
subsystem name, append the pair (prefixed by `--cap` for the
`ceph-authtool` dialect) to the accumulated command. -/
def generate_caps (cmd : List String) (t : String) (caps : List (String × String)) :
    List String :=
  match caps with
  | [] => cmd
  | (k, v) :: rest =>
    if k.length = 0 then generate_caps cmd t rest
    else
      generate_caps (cmd ++ (if t = "ceph-authtool" then ["--cap"] else []) ++ [k, v])
        t rest

/-- The `generate_ceph_cmd` builder: fixed admin preamble, the operation
arguments, and an optional containerized prefix split on whitespace. -/
def generate_ceph_cmd (cluster : String) (args : List String)
    (user user_key : String) (containerized : Option String) : Cmd :=
  let base_cmd := ["ceph", "-n", user, "-k", user_key, "--cluster", cluster, "auth"]
  let cmd := base_cmd ++ args
  if strFalsy containerized then cmd else pySplitWS (containerized.getD "") ++ cmd

/-- The `generate_ceph_authtool_cmd` builder.  After composing the
`ceph-authtool --create-keyring` tokens it executes `cmd.extend(base_cmd)`,
but `base_cmd` is bound nowhere in its scope, so evaluation raises
`NameError` here on every input (the remainder of the body is dead code and
is transcribed on the unreachable branch). -/
def generate_ceph_authtool_cmd (cluster name secret : String)
    (caps : List (String × String)) (auid : String) (dest : String)
    (containerized : Option String) : Except PyErr Cmd :=
  let file_destination := dest ++ "/" ++ cluster ++ "." ++ name ++ ".keyring"
  let cmd := ["ceph-authtool", "--create-keyring", file_destination,
              "--name", name, "--add-key", secret]
  match pyFreeVar authtool_locals "base_cmd" with
  | .error e => .error e
  | .ok _ =>
    let cmd := generate_caps cmd "ceph-authtool" caps
    .ok (if strFalsy containerized then cmd else pySplitWS (containerized.getD "") ++ cmd)

/-- The `create_key` builder.  It computes the keyring path, the import
arguments and the defaulted secret, then calls
`generate_ceph_authtool_cmd(cluster, name, secret, caps, dest, container_image)`;
`container_image` is bound nowhere in its scope, so evaluating that argument
raises `NameError` on every input.  The unreachable continuation transcribes
the source's positional-argument misalignment (`auid` receives `dest`, and
`dest` would receive `container_image`). -/
def create_key (env : Env) (cluster name : String) (secret : Option String)
    (caps : List (String × String)) (importKey : Bool) (auid : Option String)
    (dest : String) (containerized : Option String) : Except PyErr (List Cmd) :=
  let file_path := dest ++ "/" ++ cluster ++ "." ++ name ++ ".keyring"
  let args : List String := ["import", "-i", file_path]
  let secret :=
    if strFalsy secret then some (String.mk (generate_secret env.time env.urandom16))
    else secret
  match pyFreeVar create_key_locals "container_image" with
  | .error e => .error e
  | .ok ci =>
    match generate_ceph_authtool_cmd cluster name (secret.getD "") caps dest
        (ci.getD "") none with
    | .error e => .error e
    | .ok c1 =>
      if importKey then
        let user_key := "/etc/ceph/" ++ cluster ++ ".client.admin.keyring"
        .ok [c1, generate_ceph_cmd cluster args "client.admin" user_key containerized]
      else .ok [c1]

/-- The `update_key` builder. -/
def update_key (cluster name : String) (caps : List (String × String))
    (containerized : Option String) : List Cmd :=
  let args := generate_caps ["caps", name] "ceph" caps
  [generate_ceph_cmd cluster args "client.admin"
    ("/etc/ceph/" ++ cluster ++ ".client.admin.keyring") containerized]

/-- The `delete_key` builder. -/
def delete_key (cluster name : String) (containerized : Option String) : List Cmd :=
  [generate_ceph_cmd cluster ["del", name] "client.admin"
    ("/etc/ceph/" ++ cluster ++ ".client.admin.keyring") containerized]

/-- The `info_key` builder. -/
def info_key (cluster name user user_key output_format : String)
    (containerized : Option String) : List Cmd :=
  [generate_ceph_cmd cluster ["get", name, "-f", output_format] user user_key
    containerized]

/-- The `list_keys` builder. -/
def list_keys (cluster user user_key : String) (containerized : Option String) :
    List Cmd :=
  [generate_ceph_cmd cluster ["ls", "-f", "json"] user user_key containerized]

/-- The `exec_commands` executor: run each command in order, returning at the
first non-zero exit code, otherwise returning the last command's results.
The second component is the list of commands actually executed.  On an empty
list the trailing `return rc, cmd, out, err` reads variables never assigned
(`UnboundLocalError`); no call site constructs an empty list. -/
def exec_commands (run : Cmd → Int × String × String) :
    List Cmd → Except PyErr (Int × Cmd × String × String) × List Cmd
  | [] => (.error (.unboundLocal "rc"), [])
  | [c] => (.ok ((run c).1, c, (run c).2.1, (run c).2.2), [c])
  | c :: rest =>
    if (run c).1 ≠ 0 then (.ok ((run c).1, c, (run c).2.1, (run c).2.2), [c])
    else ((exec_commands run rest).1, c :: (exec_commands run rest).2)

/-- Membership test `key in out_dict` on a parsed JSON value: key membership
for a dict, element equality for a list, substring test for a string, and a
`TypeError` for non-iterable values. -/
def pyContains (d : PyJson) (key : String) : Except PyErr Bool :=
  match d with
  | .obj kvs => .ok (kvs.any (fun kv => kv.1 == key))
  | .arr xs => .ok (xs.any (fun x => match x with | .str s => s == key | _ => false))
  | .str s => .ok (pyInStr key s)
  | _ => .error (.typeError "argument of type is not iterable")

/-- Subscript `out_dict[key]` on a parsed JSON value: dict lookup (last
binding wins, as `json.loads` keeps the last duplicate), `TypeError`
otherwise. -/
def pySubscript (d : PyJson) (key : String) : Except PyErr PyJson :=
  match d with
  | .obj kvs =>
    match kvs.reverse.find? (fun kv => kv.1 == key) with
    | some kv => .ok kv.2
    | none => .error (.keyError key)
  | _ => .error (.typeError "indices must be integers or slices")

/-- The inner loop of `lookup_ceph_initial_entities` over one `auth_dump`
entry: collect the values of `entity` keys that are strings listed in
`CEPH_INITIAL_KEYS`. -/
def entity_hits (kvs : List (String × PyJson)) : List String :=
  kvs.filterMap fun kv =>
    if kv.1 = "entity" then
      match kv.2 with
      | .str s => if CEPH_INITIAL_KEYS.contains s then some s else none
      | _ => none
    else none

/-- Iterate `for key in out_dump: for k, v in key.items(): ...` over the
elements of the `auth_dump` list.  A non-dict element has no `.items()`
(`AttributeError`). -/
def collectItems : List PyJson → Except PyErr (List String)
  | [] => .ok []
  | .obj kvs :: rest =>
    match collectItems rest with
    | .ok l => .ok (entity_hits kvs ++ l)
    | .error e => .error e
  | _ :: _ => .error (.attrError "object has no attribute items")

/-- Dispatch of that iteration on the shape of the `auth_dump` value: only a
list of dicts (or an empty dict/string, which iterates zero times) gets
anywhere; other shapes raise. -/
def collectEntities : PyJson → Except PyErr (List String)
  | .arr items => collectItems items
  | .obj [] => .ok []
  | .obj (_ :: _) => .error (.attrError "object has no attribute items")
  | .str s => if s.isEmpty then .ok [] else .error (.attrError "object has no attribute items")
  | _ => .error (.typeError "object is not iterable")

/-- The `lookup_ceph_initial_entities` routine.  Both of its `fatal(...)`
calls pass `module`, a name bound nowhere in its scope, so the invalid-JSON
and missing-`auth_dump` branches actually raise `NameError` while evaluating
the call's arguments; the `fatal` calls themselves are dead code,
transcribed on the unreachable branches.  When the collected entity count
differs from `len(CEPH_INITIAL_KEYS)` it returns `None` (`.ok none`). -/
def lookup_ceph_initial_entities (env : Env) (out : String) :
    Except Outcome (Option (List String)) :=
  match env.jsonLoads out with
  | none =>
    match pyFreeVar lookup_locals "module" with
    | .error e => .error (.raised e)
    | .ok _ => .error (fatal "Could not decode 'ceph auth list' json output" true)
  | some out_dict =>
    match pyContains out_dict "auth_dump" with
    | .error e => .error (.raised e)
    | .ok false =>
      match pyFreeVar lookup_locals "module" with
      | .error e => .error (.raised e)
      | .ok _ => .error (fatal "'auth_dump' key not present in json output:" true)
    | .ok true =>
      match pySubscript out_dict "auth_dump" with
      | .error e => .error (.raised e)
      | .ok dump =>
        match collectEntities dump with
        | .error e => .error (.raised e)
        | .ok entities =>
          if entities.length ≠ CEPH_INITIAL_KEYS.length then .ok none
          else .ok (some entities)

/-- The `build_key_path` helper: admin entities map under `/etc/ceph`,
bootstrap entities under `/var/lib/ceph/<service>` (the service name is
`entity.split('.')[1]`, an `IndexError` when the entity has no dot), and
anything else yields `None`. -/
def build_key_path (cluster entity : String) : Except PyErr (Option String) :=
  if pyInStr "admin" entity then
    .ok (some ("/etc/ceph" ++ "/" ++ cluster ++ "." ++ entity ++ ".keyring"))
  else if pyInStr "bootstrap" entity then
    match (py_split_dot entity).get? 1 with
    | some entity_split =>
      .ok (some ("/var/lib/ceph" ++ "/" ++ entity_split ++ "/" ++ cluster ++ ".keyring"))
    | none => .error (.indexError "list index out of range")
  else .ok none

/-- The per-entity loop of the `fetch_initial_keys` branch: resolve the key
path (`fatal` when unresolvable), skip entities whose file already exists,
otherwise run the info command redirected with `-o` and fix ownership and
mode (`fatal` on an `OSError`).  Carries the running
`(rc, cmd, out, err)` tuple and returns the commands executed. -/
def fetch_loop (env : Env) (cluster user user_key : String)
    (containerized : Option String) :
    List String → Int × Cmd × String × String →
    Except Outcome (Int × Cmd × String × String) × List Cmd
  | [], st => (.ok st, [])
  | entity :: rest, st =>
    match build_key_path cluster entity with
    | .error e => (.error (.raised e), [])
    | .ok none => (.error (fatal "Failed to build key path, no entity yet?" true), [])
    | .ok (some key_path) =>
      if env.isfile key_path then
        fetch_loop env cluster user user_key containerized rest st
      else
        let info_cmd :=
          match info_key cluster entity user user_key "plain" containerized with
          | c :: cs => (c ++ ["-o", key_path]) :: cs
          | [] => []
        match exec_commands env.run info_cmd with
        | (.error e, tr) => (.error (.raised e), tr)
        | (.ok st2, tr) =>
          if env.chownOk key_path then
            match fetch_loop env cluster user user_key containerized rest st2 with
            | (r, tr2) => (r, tr ++ tr2)
          else
            (.error (fatal ("Failed to set owner/group/permissions of " ++ key_path)
              true), tr)

/-- The final block of `run_module`: build the result dict (with
`changed=True` and CR/LF-stripped output) and fail on a non-zero return
code, exit otherwise. -/
def finalize (rc : Int) (cmd : Cmd) (out err : String) : Outcome :=
  let r : ResultDict :=
    { changed := true, stdout := rstripCRLF out, stderr := rstripCRLF err,
      rc := some rc, cmd := some cmd }
  if rc ≠ 0 then .failed "non-zero return code" rc (some r) else .exited r

/-- The skip message of the `present` no-op branch. -/
def skip_exists_msg (name : String) : String :=
  "skipped, since " ++ name ++
    " already exists, if you want to update a key use 'state: update'"

/-- The skip message of the `update` and `info` nonexistent-key branches. -/
def skip_absent_msg (name : String) : String :=
  "skipped, since " ++ name ++ " does not exist"

/-- A skip exit: the initial result dict with its `stdout` and `rc` fields
updated. -/
def skipResult (msg : String) (rc : Int) : ResultDict :=
  { changed := false, stdout := msg, stderr := "", rc := some rc, cmd := none }

/-- The invalid-state message of the dispatcher's final `else`. -/
def invalid_state_msg : String :=
  "State must either be \"present\" or \"absent\" or \"update\" or \"list\" or \"info\" or \"fetch_initial_keys\"."

/-- The creation path of the `present` branch (source lines 531-538): the
call `create_key(module, result, cluster, name, secret, caps, import_key,
dest, container_image)` evaluates the unbound name `container_image`, so it
raises `NameError` on every input.  The unreachable continuation transcribes
the call (note `auid` receiving `dest`) and the subsequent execution. -/
def present_create (env : Env) (p : Params) (tr : List Cmd) : Outcome × List Cmd :=
  match pyFreeVar run_module_locals "container_image" with
  | .error e => (.raised e, tr)
  | .ok ci =>
    match create_key env p.cluster p.name p.secret (p.caps.getD []) p.importKey
        (some p.dest) (ci.getD "") none with
    | .error e => (.raised e, tr)
    | .ok cmds =>
      match exec_commands env.run cmds with
      | (.error e, tr2) => (.raised e, tr ++ tr2)
      | (.ok (rc, cmd, out, err), tr2) => (finalize rc cmd out err, tr ++ tr2)

/-- The state dispatch of `run_module` (source lines 517-646).  `rcq` is the
pre-check result when the pre-check ran (`import_key` true), otherwise
`none`: a read of `rc` with `rcq = none` is a read of a never-assigned local
and raises `UnboundLocalError`.  `tr` is the list of commands executed so
far. -/
def dispatch (env : Env) (p : Params)
    (rcq : Option (Int × Cmd × String × String)) (tr : List Cmd) :
    Outcome × List Cmd :=
  if p.state = "present" then
    if capsFalsy p.caps then
      (fatal "Capabilities must be provided when state is 'present'" true, tr)
    else if p.importKey then
      match rcq with
      | none => (.raised (.unboundLocal "rc"), tr)
      | some (rc, _cmd, _out, _err) =>
        if rc = 0 ∧ strFalsy p.secret then
          (.exited (skipResult (skip_exists_msg p.name) rc), tr)
        else present_create env p tr
    else present_create env p tr
  else if p.state = "update" then
    if capsFalsy p.caps then
      (fatal "Capabilities must be provided when state is 'update'" true, tr)
    else
      match rcq with
      | none => (.raised (.unboundLocal "rc"), tr)
      | some (rc, _cmd, _out, _err) =>
        if rc ≠ 0 then (.exited (skipResult (skip_absent_msg p.name) 0), tr)
        else
          match exec_commands env.run
              (update_key p.cluster p.name (p.caps.getD []) p.containerized) with
          | (.error e, tr2) => (.raised e, tr ++ tr2)
          | (.ok (rc2, cmd2, out2, err2), tr2) =>
            (finalize rc2 cmd2 out2 err2, tr ++ tr2)
  else if p.state = "absent" then
    match exec_commands env.run (delete_key p.cluster p.name p.containerized) with
    | (.error e, tr2) => (.raised e, tr ++ tr2)
    | (.ok (rc2, cmd2, out2, err2), tr2) => (finalize rc2 cmd2 out2 err2, tr ++ tr2)
  else if p.state = "info" then
    match rcq with
    | none => (.raised (.unboundLocal "rc"), tr)
    | some (rc, _cmd, _out, _err) =>
      if rc ≠ 0 then (.exited (skipResult (skip_absent_msg p.name) 0), tr)
      else
        let user_key := "/etc/ceph/" ++ p.cluster ++ ".client.admin.keyring"
        match exec_commands env.run
            (info_key p.cluster p.name "client.admin" user_key "json"
              p.containerized) with
        | (.error e, tr2) => (.raised e, tr ++ tr2)
        | (.ok (rc2, cmd2, out2, err2), tr2) => (finalize rc2 cmd2 out2 err2, tr ++ tr2)
  else if p.state = "list" then
    let user_key := "/etc/ceph/" ++ p.cluster ++ ".client.admin.keyring"
    match exec_commands env.run
        (list_keys p.cluster "client.admin" user_key p.containerized) with
    | (.error e, tr2) => (.raised e, tr ++ tr2)
    | (.ok (rc2, cmd2, out2, err2), tr2) => (finalize rc2 cmd2 out2 err2, tr ++ tr2)
  else if p.state = "fetch_initial_keys" then
    let user := "mon."
    let user_key := "/var/lib/ceph/mon/" ++ p.cluster ++ "-" ++ env.hostname ++ "/keyring"
    match exec_commands env.run (list_keys p.cluster user user_key p.containerized) with
    | (.error e, tr2) => (.raised e, tr ++ tr2)
    | (.ok (rc2, cmd2, out2, err2), tr2) =>
      if rc2 ≠ 0 then
        (.exited (skipResult "failed to retrieve ceph keys" 0), tr ++ tr2)
      else
        match lookup_ceph_initial_entities env out2 with
        | .error o => (o, tr ++ tr2)
        | .ok none =>
          (fatal "Failed to find some of the initial entities" true, tr ++ tr2)
        | .ok (some entities) =>
          if !env.pwnam_ceph then
            (.raised (.keyError "getpwnam(): name not found: ceph"), tr ++ tr2)
          else if !env.grnam_ceph then
            (.raised (.keyError "getgrnam(): name not found: ceph"), tr ++ tr2)
          else
            match fetch_loop env p.cluster user user_key p.containerized entities
                (rc2, cmd2, out2, err2) with
            | (.error o, tr3) => (o, tr ++ tr2 ++ tr3)
            | (.ok (rc3, cmd3, out3, err3), tr3) =>
              (finalize rc3 cmd3 out3 err3, tr ++ tr2 ++ tr3)
  else
    (.failed invalid_state_msg 1 none, tr)

/-- The `run_module` entry point (check mode aside): when `import_key` is
true, first run the key-existence pre-check (an info command in JSON
format), then dispatch on the state; the pre-check's `(rc, cmd, out, err)`
are the only assignment of those locals before the dispatch. -/
def run_module (env : Env) (p : Params) : Outcome × List Cmd :=
  if p.importKey then
    let user_key := "/etc/ceph/" ++ p.cluster ++ ".client.admin.keyring"
    match exec_commands env.run
        (info_key p.cluster p.name "client.admin" user_key "json"
          p.containerized) with
    | (.error e, trc) => (.raised e, trc)
    | (.ok r, trc) => dispatch env p (some r) trc
  else dispatch env p none []

/-- The admin keyring path used by the pre-check and most builders. -/
def admin_keyring (cluster : String) : String :=
  "/etc/ceph/" ++ cluster ++ ".client.admin.keyring"

/-- The pre-check command of an invocation. -/
def pre_cmd (p : Params) : Cmd :=
  generate_ceph_cmd p.cluster ["get", p.name, "-f", "json"] "client.admin"
    (admin_keyring p.cluster) p.containerized

/-- The commands executed before the state dispatch: the pre-check when
`import_key` is true, nothing otherwise. -/
def pre_trace (p : Params) : List Cmd :=
  if p.importKey then [pre_cmd p] else []

/-- The exit code of the pre-check command. -/
def pre_rc (env : Env) (p : Params) : Int := (env.run (pre_cmd p)).1

/-- The captured stdout of the pre-check command. -/
def pre_out (env : Env) (p : Params) : String := (env.run (pre_cmd p)).2.1

/-- The captured stderr of the pre-check command. -/
def pre_err (env : Env) (p : Params) : String := (env.run (pre_cmd p)).2.2

/-- The listing command of the `fetch_initial_keys` branch. -/
def fetch_list_cmd (env : Env) (p : Params) : Cmd :=
  generate_ceph_cmd p.cluster ["ls", "-f", "json"] "mon."
    ("/var/lib/ceph/mon/" ++ p.cluster ++ "-" ++ env.hostname ++ "/keyring")
    p.containerized

/-- The deletion command of the `absent` branch. -/
def del_cmd (p : Params) : Cmd :=
  generate_ceph_cmd p.cluster ["del", p.name] "client.admin"
    (admin_keyring p.cluster) p.containerized

/-- The listing command of the `list` branch. -/
def list_cmd_admin (p : Params) : Cmd :=
  generate_ceph_cmd p.cluster ["ls", "-f", "json"] "client.admin"
    (admin_keyring p.cluster) p.containerized

/-- The capability-update command of the `update` branch. -/
def upd_cmd (p : Params) : Cmd :=
  generate_ceph_cmd p.cluster
    (generate_caps ["caps", p.name] "ceph" (p.caps.getD [])) "client.admin"
    (admin_keyring p.cluster) p.containerized

/-- The capability token list as the specification words it: every entry with
a non-empty subsystem name contributes its key and value as adjacent tokens,
in order, prefixed by `--cap` exactly for the `ceph-authtool` dialect.  Used
only to compare `generate_caps` against the specification. -/
def caps_tokens_spec (t : String) (caps : List (String × String)) : List String :=
  caps.foldr
    (fun kv acc =>
      if kv.1 = "" then acc
      else (if t = "ceph-authtool" then ["--cap"] else []) ++ [kv.1, kv.2] ++ acc)
    []

/-- An environment whose every command succeeds with empty output and whose
other oracles are inert. -/
def envZero : Env :=
  { run := fun _ => (0, "", ""), jsonLoads := fun _ => none, hostname := "mon0",
    isfile := fun _ => false, chownOk := fun _ => true, pwnam_ceph := true,
    grnam_ceph := true, time := 0, urandom16 := List.replicate 16 0 }

/-- An environment whose every command fails with exit code 1. -/
def envOne : Env :=
  { envZero with run := fun _ => (1, "out1", "err1") }

/-- An environment whose every command fails with exit code 3 and noisy
output. -/
def envThree : Env :=
  { envZero with run := fun _ => (3, "boom\r\n", "err\n") }

/-- A listing whose `auth_dump` holds seven entries that all name
`client.admin`: seven matching entries, but not all seven initial names. -/
def dump7dup : PyJson :=
  .obj [("auth_dump",
    .arr (List.replicate 7 (.obj [("entity", .str "client.admin")])))]

/-- An environment whose listing command succeeds with an output that parses
to `dump7dup`, and on whose filesystem every keyring file already exists. -/
def envDup : Env :=
  { envZero with
    run := fun _ => (0, "LISTOUT", ""),
    jsonLoads := (fun s => if s = "LISTOUT" then some dump7dup else none),
    isfile := fun _ => true }

/-- An environment whose listing succeeds but whose output does not parse as
JSON. -/
def envBadJson : Env :=
  { envZero with run := fun _ => (0, "NOTJSON", "") }

/-- An invocation asking for `present` with an explicit secret on an existing
key (every command of `envZero` reports exit code 0, so the pre-check finds
the key). -/
def pPresentSecret : Params :=
  { cluster := "ceph", name := "client.test", state := "present",
    containerized := none, caps := some [("mon", "allow r")],
    secret := some "AQAin8tUUK84ExAA/QgBtI7gEMWdmnvKBzlXdQ==",
    importKey := true, dest := "/etc/ceph/" }

/-- A `present` invocation with a secret and `import_key` false. -/
def pPresentNoImport : Params :=
  { pPresentSecret with
    name := "client.alpha", secret := some "K", importKey := false }

/-- A `present` invocation with no secret and two capability entries. -/
def pPresentNoSecret : Params :=
  { pPresentSecret with
    secret := none, caps := some [("mon", "allow rwx"), ("osd", "allow *")] }

/-- An invocation with an unrecognized state value. -/
def pBogusState : Params :=
  { pPresentSecret with state := "wat", caps := none, secret := none }

/-- A `fetch_initial_keys` invocation (with `import_key` false, so the
pre-check is not run). -/
def pFetch : Params :=
  { cluster := "ceph", name := "client.test", state := "fetch_initial_keys",
    containerized := none, caps := none, secret := none, importKey := false,
    dest := "/etc/ceph/" }

/-- An `absent` invocation. -/
def pAbsent : Params :=
  { pPresentSecret with state := "absent", caps := none, secret := none }

/-- An `update` invocation with no capabilities and the default
`import_key = true`. -/
def pUpdNoCapsImp : Params :=
  { pPresentSecret with state := "update", caps := none, secret := none }

/-- An `update` invocation with no capabilities and `import_key = false`. -/
def pUpdNoCapsNoImp : Params :=
  { pUpdNoCapsImp with importKey := false }

/-- An `update` invocation with capabilities and the default
`import_key = true`. -/
def pUpdCaps : Params :=
  { pPresentSecret with state := "update", secret := none }

/-- An `info` invocation with `import_key = false`. -/
def pInfoNoImport : Params :=
  { pPresentSecret with
    state := "info", caps := none, secret := none, importKey := false }

/-- An invocation with an unrecognized state and `import_key = false`. -/
def pBogusNoImport : Params :=
  { pBogusState with importKey := false }

/-- The result dict that the final block builds for the execution of `c`
under `env`. -/
def run_result (env : Env) (c : Cmd) : ResultDict :=
  { changed := true, stdout := rstripCRLF (env.run c).2.1,
    stderr := rstripCRLF (env.run c).2.2, rc := some (env.run c).1,
    cmd := some c }

/-! Shared lemmas. -/

theorem string_length_eq_zero (s : String) : s.length = 0 ↔ s = "" := by
  constructor
  · intro h
    cases s with
    | mk data =>
      cases data with
      | nil => rfl
      | cons a l => simp [String.length] at h
  · intro h
    subst h
    rfl

theorem generate_caps_eq (t : String) (caps : List (String × String)) :
    ∀ cmd, generate_caps cmd t caps = cmd ++ caps_tokens_spec t caps := by
  induction caps with
  | nil => intro cmd; simp [generate_caps, caps_tokens_spec]
  | cons kv rest ih =>
    intro cmd
    obtain ⟨k, v⟩ := kv
    by_cases hk : k = ""
    · subst hk
      simp [generate_caps, caps_tokens_spec, ih]
    · have hlen : ¬ k.length = 0 := by
        intro h; exact hk ((string_length_eq_zero k).mp h)
      simp only [generate_caps, caps_tokens_spec, if_neg hlen]
      rw [ih]
      simp [caps_tokens_spec, if_neg hk]

theorem toSextets_lt (bs : List Nat) (h : ∀ b ∈ bs, b < 256) :
    ∀ s ∈ toSextets bs, s < 64 := by
  induction bs using toSextets.induct with
  | case1 => intro s hs; simp [toSextets] at hs
  | case2 b1 =>
    intro s hs
    have h1 := h b1 (by simp)
    simp [toSextets] at hs
    rcases hs with h' | h' <;> omega
  | case3 b1 b2 =>
    intro s hs
    have h1 := h b1 (by simp)
    have h2 := h b2 (by simp)
    simp [toSextets] at hs
    rcases hs with h' | h' | h' <;> omega
  | case4 b1 b2 b3 rest ih =>
    intro s hs
    have h1 := h b1 (by simp)
    have h2 := h b2 (by simp)
    have h3 := h b3 (by simp)
    simp only [toSextets, List.mem_cons] at hs
    rcases hs with h' | h' | h' | h' | h'
    · omega
    · omega
    · omega
    · omega
    · exact ih (fun b hb => h b (by simp [hb])) s h'

theorem fromSextets_toSextets (bs : List Nat) (h : ∀ b ∈ bs, b < 256) :
    fromSextets (toSextets bs) = bs := by
  induction bs using toSextets.induct with
  | case1 => rfl
  | case2 b1 =>
    have h1 := h b1 (by simp)
    simp [toSextets, fromSextets]
    omega
  | case3 b1 b2 =>
    have h1 := h b1 (by simp)
    have h2 := h b2 (by simp)
    simp [toSextets, fromSextets]
    omega
  | case4 b1 b2 b3 rest ih =>
    have h1 := h b1 (by simp)
    have h2 := h b2 (by simp)
    have h3 := h b3 (by simp)
    have ih' := ih (fun b hb => h b (by simp [hb]))
    cases rest with
    | nil =>
      simp only [toSextets, fromSextets, List.cons.injEq, and_true]
      omega
    | cons c cs =>
      simp only [toSextets, fromSextets] at *
      rw [ih']
      simp only [List.cons.injEq, and_true]
      omega

theorem charOfSextet_ne_pad : ∀ s < 64, charOfSextet s ≠ '=' := by decide

theorem sextetOfChar_charOfSextet : ∀ s < 64, sextetOfChar (charOfSextet s) = s := by
  decide

theorem b64pad_filter (n : Nat) : (b64pad n).filter (fun c => c != '=') = [] := by
  match n with
  | 0 => rfl
  | 1 => rfl
  | 2 => rfl
  | k + 3 => rfl

theorem b64decode_b64encode (bs : List Nat) (h : ∀ b ∈ bs, b < 256) :
    b64decode (b64encode bs) = bs := by
  have hlt := toSextets_lt bs h
  unfold b64decode b64encode
  rw [List.filter_append, b64pad_filter, List.append_nil]
  have hfilter : ((toSextets bs).map charOfSextet).filter (fun c => c != '=') =
      (toSextets bs).map charOfSextet := by
    apply List.filter_eq_self.mpr
    intro c hc
    obtain ⟨s, hs, rfl⟩ := List.mem_map.mp hc
    simp [charOfSextet_ne_pad s (hlt s hs)]
  rw [hfilter, List.map_map]
  have hmap : (toSextets bs).map (sextetOfChar ∘ charOfSextet) =
      (toSextets bs).map id := by
    apply List.map_congr_left
    intro s hs
    exact sextetOfChar_charOfSextet s (hlt s hs)
  rw [hmap, List.map_id]
  exact fromSextets_toSextets bs h

theorem le_bytes_lt (w : Nat) : ∀ n, ∀ b ∈ le_bytes w n, b < 256 := by
  induction w with
  | zero => intro n b hb; simp [le_bytes] at hb
  | succ w ih =>
    intro n b hb
    simp only [le_bytes, List.mem_cons] at hb
    rcases hb with h | h
    · omega
    · exact ih (n / 256) b h

theorem exec_single (run : Cmd → Int × String × String) (c : Cmd) :
    exec_commands run [c] = (.ok ((run c).1, c, (run c).2.1, (run c).2.2), [c]) := rfl

theorem run_module_import (env : Env) (p : Params) (h : p.importKey = true) :
    run_module env p =
      dispatch env p (some (pre_rc env p, pre_cmd p, pre_out env p, pre_err env p))
        [pre_cmd p] := by
  simp only [run_module, h, if_true, info_key, exec_commands]
  rfl

theorem run_module_noimport (env : Env) (p : Params) (h : p.importKey = false) :
    run_module env p = dispatch env p none [] := by
  simp only [run_module, h, Bool.false_eq_true, if_false]

theorem freevar_rm_container :
    pyFreeVar run_module_locals "container_image" =
      .error (.nameError "container_image") := by
  simp [pyFreeVar, run_module_locals, module_globals]

theorem freevar_ck_container :
    pyFreeVar create_key_locals "container_image" =
      .error (.nameError "container_image") := by
  simp [pyFreeVar, create_key_locals, module_globals]

theorem freevar_at_basecmd :
    pyFreeVar authtool_locals "base_cmd" = .error (.nameError "base_cmd") := by
  simp [pyFreeVar, authtool_locals, module_globals]

theorem freevar_lookup_module :
    pyFreeVar lookup_locals "module" = .error (.nameError "module") := by
  simp [pyFreeVar, lookup_locals, module_globals]

/-! Claims C8 and C9. -/

/-- C8: for every capability mapping, `generate_caps` drops entries whose
subsystem name is the empty string and emits every other entry as adjacent
(key, value) tokens in the mapping's iteration order, prefixing each pair
with `--cap` exactly when the dialect is `ceph-authtool`; in particular the
specification's two example encodings hold. -/
theorem c8_generate_caps_encoding :
    (∀ cmd t caps, generate_caps cmd t caps = cmd ++ caps_tokens_spec t caps) ∧
    generate_caps [] "ceph-authtool" [("mon", "allow rwx"), ("mds", "allow *")] =
      ["--cap", "mon", "allow rwx", "--cap", "mds", "allow *"] ∧
    generate_caps [] "ceph" [("mon", "allow rwx"), ("mds", "allow *")] =
      ["mon", "allow rwx", "mds", "allow *"] :=
  ⟨fun cmd t caps => generate_caps_eq t caps cmd, rfl, rfl⟩

/-- C9: for every timestamp below 2^31 (the range of the packed signed field)
and every 16-byte key material, the fallback secret is the base64 encoding
of the little-endian header (version 1 as 2 bytes, timestamp as 4 bytes,
reserved zero as 4 bytes, key length 16 as 2 bytes) followed by the 16 key
bytes: decoding it recovers exactly that blob, whose first field is 1 and
whose length field (bytes 10-11) declares exactly 16 bytes of key material,
which trail the 12-byte header. -/
theorem c9_generate_secret_layout (t : Nat) (key : List Nat) (ht : t < 2 ^ 31)
    (hlen : key.length = 16) (hbytes : ∀ b ∈ key, b < 256) :
    b64decode (generate_secret t key) =
      le_bytes 2 1 ++ le_bytes 4 t ++ le_bytes 4 0 ++ le_bytes 2 16 ++ key ∧
    (b64decode (generate_secret t key)).take 2 = [1, 0] ∧
    ((b64decode (generate_secret t key)).drop 10).take 2 = [16, 0] ∧
    (b64decode (generate_secret t key)).drop 12 = key := by
  have hblob : ∀ b ∈ struct_pack_hiih 1 t 0 key.length ++ key, b < 256 := by
    intro b hb
    rcases List.mem_append.mp hb with h | h
    · simp only [struct_pack_hiih] at h
      rcases List.mem_append.mp h with h' | h'
      · rcases List.mem_append.mp h' with h'' | h''
        · rcases List.mem_append.mp h'' with h3 | h3
          · exact le_bytes_lt 2 1 b h3
          · exact le_bytes_lt 4 t b h3
        · exact le_bytes_lt 4 0 b h''
      · exact le_bytes_lt 2 key.length b h'
    · exact hbytes b h
  have hdec : b64decode (generate_secret t key) =
      struct_pack_hiih 1 t 0 key.length ++ key := by
    unfold generate_secret
    exact b64decode_b64encode _ hblob
  rw [hdec, hlen]
  refine ⟨by simp [struct_pack_hiih], ?_, ?_, ?_⟩
  · simp [struct_pack_hiih, le_bytes]
  · simp [struct_pack_hiih, le_bytes]
  · simp [struct_pack_hiih, le_bytes]

/-- C9 witness: the layout theorem instantiated at timestamp 1500000000 and
key bytes 0..15: the decoded blob's length field declares exactly 16 bytes. -/
theorem c9_witness :
    ((b64decode (generate_secret 1500000000 (List.range 16))).drop 10).take 2 =
      [16, 0] :=
  (c9_generate_secret_layout 1500000000 (List.range 16) (by decide) (by decide)
    (by decide)).2.2.1


theorem present_create_raises (env : Env) (p : Params) (tr : List Cmd) :
    present_create env p tr = (.raised (.nameError "container_image"), tr) := by
  simp only [present_create, freevar_rm_container]

/-! Claims C1, C2 and C3. -/

/-- C1: every `present` invocation that gets past the no-op short-circuit
(capabilities supplied, and not the import-with-existing-key-and-no-secret
case) raises a `NameError` before any command list is produced, because the
dispatcher's `create_key` call site reads the undefined `container_image`;
moreover `create_key` itself reads the undefined `container_image` and
`generate_ceph_authtool_cmd` reads the undefined `base_cmd`, each on every
input. -/
theorem c1_creation_path_unbound_names :
    (∀ (env : Env) (p : Params), p.state = "present" → capsFalsy p.caps = false →
      ¬(p.importKey = true ∧ pre_rc env p = 0 ∧ strFalsy p.secret = true) →
      run_module env p = (.raised (.nameError "container_image"), pre_trace p)) ∧
    (∀ (env : Env) (cluster name : String) (secret : Option String)
      (caps : List (String × String)) (ik : Bool) (auid : Option String)
      (dest : String) (cont : Option String),
      create_key env cluster name secret caps ik auid dest cont =
        .error (.nameError "container_image")) ∧
    (∀ (cluster name secret : String) (caps : List (String × String))
      (auid dest : String) (cont : Option String),
      generate_ceph_authtool_cmd cluster name secret caps auid dest cont =
        .error (.nameError "base_cmd")) := by
  refine ⟨?_, ?_, ?_⟩
  · intro env p hs hc hno
    cases hik : p.importKey with
    | false =>
      rw [run_module_noimport env p hik]
      simp only [dispatch, hs, if_true, hc, hik, Bool.false_eq_true, if_false,
        reduceIte]
      rw [present_create_raises]
      simp [pre_trace, hik]
    | true =>
      rw [run_module_import env p hik]
      have hcond : ¬(pre_rc env p = 0 ∧ strFalsy p.secret = true) := by
        intro hcon
        exact hno ⟨hik, hcon.1, hcon.2⟩
      simp only [dispatch, hs, if_true, hc, hik, Bool.false_eq_true, if_false,
        reduceIte]
      rw [if_neg hcond, present_create_raises]
      simp [pre_trace, hik]
  · intro env cluster name secret caps ik auid dest cont
    simp only [create_key, freevar_ck_container]
  · intro cluster name secret caps auid dest cont
    simp only [generate_ceph_authtool_cmd, freevar_at_basecmd]

/-- C1 witness: a concrete `present` invocation with `import_key` false (so
the short-circuit cannot apply) raises the `container_image` `NameError`
with no command executed. -/
theorem c1_witness :
    run_module envZero pPresentNoImport =
      (.raised (.nameError "container_image"), pre_trace pPresentNoImport) :=
  c1_creation_path_unbound_names.1 envZero pPresentNoImport rfl rfl
    (by intro h; exact absurd h.1 (by decide))

/-- C2: a `present` invocation whose pre-check found the key (`import_key`
true and pre-check exit code 0) and that supplies no secret exits as a
no-op: a skip message, reported rc 0, `changed` still false, and no command
beyond the pre-check executed, whatever the supplied (non-empty) capability
mapping contains. -/
theorem c2_present_existing_no_secret_skips (env : Env) (p : Params)
    (hs : p.state = "present") (hik : p.importKey = true)
    (hc : capsFalsy p.caps = false) (hsec : strFalsy p.secret = true)
    (hrc : pre_rc env p = 0) :
    run_module env p =
      (.exited (skipResult (skip_exists_msg p.name) 0), [pre_cmd p]) := by
  rw [run_module_import env p hik]
  simp only [dispatch, hs, if_true, hc, hik, reduceIte, Bool.false_eq_true,
    if_false]
  simp [hrc, hsec]

/-- C2 witness: the no-op exit at a concrete existing key with two
capability entries and no secret. -/
theorem c2_witness :
    run_module envZero pPresentNoSecret =
      (.exited (skipResult (skip_exists_msg pPresentNoSecret.name) 0),
        [pre_cmd pPresentNoSecret]) :=
  c2_present_existing_no_secret_skips envZero pPresentNoSecret rfl rfl rfl rfl rfl

/-- C3 (failing-input evaluation): at the specification's own example — state
`present`, an explicit secret, capabilities supplied, `import_key` true, and
an existing key (the pre-check exits 0) — the claim expects the authoring
and import commands to run; instead the invocation raises the
`container_image` `NameError` right after the pre-check, and neither the
authoring command nor the import command is ever executed. -/
theorem c3_secret_creation_crashes :
    run_module envZero pPresentSecret =
      (.raised (.nameError "container_image"), [pre_cmd pPresentSecret]) := by
  decide


/-! Claims C4, C7 and C10. -/

/-- C4 (amended): an unrecognized state value, and empty or absent
capabilities under `present` or `update`, each produce an immediate
user-input failure; no further command is executed after the error, and no
command at all precedes it when `import_key` is false — but when
`import_key` is true (the default) the key-existence pre-check command has
already been executed before the error is reported. -/
theorem c4_user_input_errors_amended (env : Env) (p : Params) :
    (p.state ≠ "present" → p.state ≠ "update" → p.state ≠ "absent" →
      p.state ≠ "info" → p.state ≠ "list" → p.state ≠ "fetch_initial_keys" →
      run_module env p = (.failed invalid_state_msg 1 none, pre_trace p)) ∧
    (p.state = "present" → capsFalsy p.caps = true →
      run_module env p =
        (.failed "Capabilities must be provided when state is 'present'" 1 none,
          pre_trace p)) ∧
    (p.state = "update" → capsFalsy p.caps = true →
      run_module env p =
        (.failed "Capabilities must be provided when state is 'update'" 1 none,
          pre_trace p)) := by
  refine ⟨?_, ?_, ?_⟩
  · intro h1 h2 h3 h4 h5 h6
    cases hik : p.importKey with
    | false =>
      rw [run_module_noimport env p hik]
      simp [dispatch, h1, h2, h3, h4, h5, h6, pre_trace, hik]
    | true =>
      rw [run_module_import env p hik]
      simp [dispatch, h1, h2, h3, h4, h5, h6, pre_trace, hik]
  · intro hs hc
    cases hik : p.importKey with
    | false =>
      rw [run_module_noimport env p hik]
      simp [dispatch, hs, hc, fatal, pre_trace, hik]
    | true =>
      rw [run_module_import env p hik]
      simp [dispatch, hs, hc, fatal, pre_trace, hik]
  · intro hs hc
    cases hik : p.importKey with
    | false =>
      rw [run_module_noimport env p hik]
      simp [dispatch, hs, hc, fatal, pre_trace, hik]
    | true =>
      rw [run_module_import env p hik]
      simp [dispatch, hs, hc, fatal, pre_trace, hik]

/-- C4 witness: an unrecognized state with `import_key` false fails with the
invalid-state message and no command executed. -/
theorem c4_witness :
    run_module envZero pBogusNoImport =
      (.failed invalid_state_msg 1 none, pre_trace pBogusNoImport) :=
  (c4_user_input_errors_amended envZero pBogusNoImport).1 (by decide) (by decide)
    (by decide) (by decide) (by decide) (by decide)

/-- C4 counterexample: with the default `import_key = true`, an invocation
with an unrecognized state still executes the key-existence pre-check
command before the user-input error is reported, so a command does run
before the error, contrary to the claim. -/
theorem c4_counterexample :
    run_module envZero pBogusState =
      (.failed invalid_state_msg 1 none, [pre_cmd pBogusState]) ∧
    (run_module envZero pBogusState).2 ≠ [] := by
  constructor
  · decide
  · decide

/-- C7 (amended): with `import_key` true, when the pre-check reports the key
absent (non-zero exit code), state `info` — and state `update` provided a
non-empty capability mapping was supplied, since the missing-capabilities
error takes precedence — exits successfully with the skip message and
reported rc 0, executing nothing beyond the pre-check. -/
theorem c7_skip_on_missing_amended (env : Env) (p : Params)
    (hik : p.importKey = true) (hrc : pre_rc env p ≠ 0)
    (hstate : p.state = "info" ∨ (p.state = "update" ∧ capsFalsy p.caps = false)) :
    run_module env p =
      (.exited (skipResult (skip_absent_msg p.name) 0), [pre_cmd p]) := by
  rw [run_module_import env p hik]
  rcases hstate with hs | ⟨hs, hc⟩
  · simp [dispatch, hs, hrc]
  · simp [dispatch, hs, hc, hrc]

/-- C7 witness: an `update` on a nonexistent key (every command exits 1 under
`envOne`) with capabilities supplied skips successfully. -/
theorem c7_witness :
    run_module envOne pUpdCaps =
      (.exited (skipResult (skip_absent_msg pUpdCaps.name) 0), [pre_cmd pUpdCaps]) :=
  c7_skip_on_missing_amended envOne pUpdCaps rfl (by decide)
    (Or.inr ⟨rfl, by decide⟩)

/-- C7 counterexample: an `update` invocation on a nonexistent key that
supplies no capabilities fails with the missing-capabilities error (rc 1)
instead of exiting successfully with the skip message, contrary to the
claim's universal statement. -/
theorem c7_counterexample :
    run_module envOne pUpdNoCapsImp =
      (.failed "Capabilities must be provided when state is 'update'" 1 none,
        [pre_cmd pUpdNoCapsImp]) ∧
    (run_module envOne pUpdNoCapsImp).1 ≠
      .exited (skipResult (skip_absent_msg pUpdNoCapsImp.name) 0) := by
  constructor
  · decide
  · decide

/-- C10 (amended): with `import_key` false, state `info` — and state
`update` provided a non-empty capability mapping was supplied, since the
missing-capabilities error takes precedence — reads the never-assigned
local `rc` and raises `UnboundLocalError` without executing any command. -/
theorem c10_unbound_rc_amended (env : Env) (p : Params)
    (hik : p.importKey = false)
    (hstate : p.state = "info" ∨ (p.state = "update" ∧ capsFalsy p.caps = false)) :
    run_module env p = (.raised (.unboundLocal "rc"), []) := by
  rw [run_module_noimport env p hik]
  rcases hstate with hs | ⟨hs, hc⟩
  · simp [dispatch, hs]
  · simp [dispatch, hs, hc]

/-- C10 witness: an `info` invocation with `import_key` false raises the
`rc` `UnboundLocalError` with no command executed. -/
theorem c10_witness :
    run_module envZero pInfoNoImport = (.raised (.unboundLocal "rc"), []) :=
  c10_unbound_rc_amended envZero pInfoNoImport rfl (Or.inl rfl)

/-- C10 counterexample: an `update` invocation with `import_key` false and no
capabilities reports the missing-capabilities error, not an unbound-name
error, contrary to the claim's universal statement. -/
theorem c10_counterexample :
    run_module envZero pUpdNoCapsNoImp =
      (.failed "Capabilities must be provided when state is 'update'" 1 none, []) ∧
    (run_module envZero pUpdNoCapsNoImp).1 ≠ .raised (.unboundLocal "rc") := by
  constructor
  · decide
  · decide


/-! Claim C6. -/

/-- C6 (amended): within each constructed command sequence, execution halts
at the first non-zero exit, whose rc, command and captured output are what
the sequence returns; a non-zero exit of the dispatched command for states
`update`, `absent` and `list` is surfaced as a hard module failure carrying
the command, return code and rstripped stdout/stderr.  (The pre-check and
the `fetch_initial_keys` listing instead treat non-zero exits as absence:
see the counterexample.) -/
theorem c6_failure_surfacing_amended :
    (∀ (run : Cmd → Int × String × String) (c : Cmd) (rest : List Cmd),
      (run c).1 ≠ 0 →
      exec_commands run (c :: rest) =
        (.ok ((run c).1, c, (run c).2.1, (run c).2.2), [c])) ∧
    (∀ (env : Env) (p : Params), p.state = "absent" →
      (env.run (del_cmd p)).1 ≠ 0 →
      run_module env p =
        (.failed "non-zero return code" (env.run (del_cmd p)).1
          (some (run_result env (del_cmd p))), pre_trace p ++ [del_cmd p])) ∧
    (∀ (env : Env) (p : Params), p.state = "list" →
      (env.run (list_cmd_admin p)).1 ≠ 0 →
      run_module env p =
        (.failed "non-zero return code" (env.run (list_cmd_admin p)).1
          (some (run_result env (list_cmd_admin p))),
          pre_trace p ++ [list_cmd_admin p])) ∧
    (∀ (env : Env) (p : Params), p.state = "update" → p.importKey = true →
      capsFalsy p.caps = false → pre_rc env p = 0 →
      (env.run (upd_cmd p)).1 ≠ 0 →
      run_module env p =
        (.failed "non-zero return code" (env.run (upd_cmd p)).1
          (some (run_result env (upd_cmd p))),
          [pre_cmd p] ++ [upd_cmd p])) := by
  refine ⟨?_, ?_, ?_, ?_⟩
  · intro run c rest hrc
    cases rest with
    | nil => rfl
    | cons d ds => simp [exec_commands, hrc]
  · intro env p hs hrc
    simp only [del_cmd, admin_keyring] at hrc
    cases hik : p.importKey with
    | false =>
      rw [run_module_noimport env p hik]
      simp [dispatch, hs, delete_key, exec_single, finalize, hrc, run_result,
        del_cmd, admin_keyring, pre_trace, hik]
    | true =>
      rw [run_module_import env p hik]
      simp [dispatch, hs, delete_key, exec_single, finalize, hrc, run_result,
        del_cmd, admin_keyring, pre_trace, hik]
  · intro env p hs hrc
    simp only [list_cmd_admin, admin_keyring] at hrc
    cases hik : p.importKey with
    | false =>
      rw [run_module_noimport env p hik]
      simp [dispatch, hs, list_keys, exec_single, finalize, hrc, run_result,
        list_cmd_admin, admin_keyring, pre_trace, hik]
    | true =>
      rw [run_module_import env p hik]
      simp [dispatch, hs, list_keys, exec_single, finalize, hrc, run_result,
        list_cmd_admin, admin_keyring, pre_trace, hik]
  · intro env p hs hik hc hrc0 hrc
    simp only [upd_cmd, admin_keyring] at hrc
    rw [run_module_import env p hik]
    simp [dispatch, hs, hc, hrc0, update_key, exec_single, finalize, hrc,
      run_result, upd_cmd, admin_keyring]

/-- C6 witness: a concrete `absent` invocation whose deletion command exits 3
is surfaced as a hard failure carrying the command, rc 3 and the rstripped
output. -/
theorem c6_witness :
    run_module envThree pAbsent =
      (.failed "non-zero return code" (envThree.run (del_cmd pAbsent)).1
        (some (run_result envThree (del_cmd pAbsent))),
        pre_trace pAbsent ++ [del_cmd pAbsent]) :=
  c6_failure_surfacing_amended.2.1 envThree pAbsent rfl (by decide)

/-- C6 counterexample: under `fetch_initial_keys`, a non-zero exit of the
listing command is not surfaced as a failure — the module exits successfully
(rc reported 0) with a plain message, contrary to the claim's universal
statement. -/
theorem c6_counterexample :
    run_module envOne pFetch =
      (.exited (skipResult "failed to retrieve ceph keys" 0),
        [fetch_list_cmd envOne pFetch]) ∧
    (envOne.run (fetch_list_cmd envOne pFetch)).1 ≠ 0 := by
  constructor
  · decide
  · decide


/-! Claim C5. -/

theorem entity_hits_mem (kvs : List (String × PyJson)) :
    ∀ s ∈ entity_hits kvs, s ∈ CEPH_INITIAL_KEYS := by
  intro s hs
  simp only [entity_hits, List.mem_filterMap] at hs
  obtain ⟨kv, _, hf⟩ := hs
  by_cases h1 : kv.1 = "entity"
  · simp only [h1, if_true] at hf
    cases h2 : kv.2 with
    | str s' =>
      rw [h2] at hf
      rcases ite_eq_iff.mp hf with ⟨h3, heq⟩ | ⟨h3, heq⟩
      · cases heq
        exact List.elem_iff.mp h3
      · cases heq
    | num n => rw [h2] at hf; cases hf
    | bool b => rw [h2] at hf; cases hf
    | null => rw [h2] at hf; cases hf
    | arr xs => rw [h2] at hf; cases hf
    | obj o => rw [h2] at hf; cases hf
  · simp [h1] at hf

theorem collectItems_mem (items : List PyJson) (l : List String)
    (h : collectItems items = .ok l) : ∀ s ∈ l, s ∈ CEPH_INITIAL_KEYS := by
  induction items generalizing l with
  | nil =>
    simp only [collectItems, Except.ok.injEq] at h
    subst h
    intro s hs
    simp at hs
  | cons x rest ih =>
    cases x with
    | obj kvs =>
      simp only [collectItems] at h
      cases hr : collectItems rest with
      | ok l2 =>
        rw [hr] at h
        simp only [Except.ok.injEq] at h
        subst h
        intro s hs
        rcases List.mem_append.mp hs with h' | h'
        · exact entity_hits_mem kvs s h'
        · exact ih l2 hr s h'
      | error e => rw [hr] at h; exact Except.noConfusion h
    | str s2 => simp [collectItems] at h
    | num n => simp [collectItems] at h
    | bool b => simp [collectItems] at h
    | null => simp [collectItems] at h
    | arr xs => simp [collectItems] at h

theorem collectEntities_mem (d : PyJson) (l : List String)
    (h : collectEntities d = .ok l) : ∀ s ∈ l, s ∈ CEPH_INITIAL_KEYS := by
  cases d with
  | arr items => exact collectItems_mem items l h
  | obj kvs =>
    cases kvs with
    | nil =>
      simp only [collectEntities, Except.ok.injEq] at h
      subst h
      intro s hs
      simp at hs
    | cons kv rest => simp [collectEntities] at h
  | str s2 =>
    simp only [collectEntities] at h
    by_cases he : s2.isEmpty
    · rw [if_pos he] at h
      simp only [Except.ok.injEq] at h
      subst h
      intro s hs
      simp at hs
    · rw [if_neg he] at h
      exact Except.noConfusion h
  | num n => simp [collectEntities] at h
  | bool b => simp [collectEntities] at h
  | null => simp [collectEntities] at h

theorem lookup_ok_some (env : Env) (out : String) (es : List String)
    (h : lookup_ceph_initial_entities env out = .ok (some es)) :
    es.length = CEPH_INITIAL_KEYS.length ∧ ∀ s ∈ es, s ∈ CEPH_INITIAL_KEYS := by
  unfold lookup_ceph_initial_entities at h
  cases hj : env.jsonLoads out with
  | none =>
    simp only [hj, freevar_lookup_module] at h
    exact Except.noConfusion h
  | some d =>
    simp only [hj] at h
    cases hc : pyContains d "auth_dump" with
    | error e =>
      simp only [hc] at h
      exact Except.noConfusion h
    | ok b =>
      simp only [hc] at h
      cases b with
      | false =>
        simp only [freevar_lookup_module] at h
        exact Except.noConfusion h
      | true =>
        cases hsub : pySubscript d "auth_dump" with
        | error e =>
          simp only [hsub] at h
          exact Except.noConfusion h
        | ok dump =>
          simp only [hsub] at h
          cases hcol : collectEntities dump with
          | error e =>
            simp only [hcol] at h
            exact Except.noConfusion h
          | ok entities =>
            simp only [hcol] at h
            by_cases hlen : entities.length ≠ CEPH_INITIAL_KEYS.length
            · rw [if_pos hlen] at h
              exact absurd h (by simp)
            · rw [if_neg hlen] at h
              simp only [Except.ok.injEq, Option.some.injEq] at h
              push_neg at hlen
              rw [← h]
              exact ⟨hlen, collectEntities_mem dump entities hcol⟩

end CephKey

namespace CephKey

/-- C5 (amended): once the `fetch_initial_keys` listing command has
succeeded, the run aborts before fetching or writing anything whenever the
lookup fails: an unparseable output or a missing `auth_dump` field raises
the `module` `NameError` (the in-function fatal reporter itself reads an
unbound name), and a matching-entry count different from seven fails
fatally — in each case the executed commands are exactly the pre-check (if
any) and the listing, so no key file is fetched.  When the lookup does
succeed, the entity list it hands to the writing loop has exactly seven
entries (counted with multiplicity), each drawn from the seven fixed initial
names — but they need not be distinct, which is what the counterexample
exploits. -/
theorem c5_fetch_lookup_amended (env : Env) (p : Params)
    (hs : p.state = "fetch_initial_keys")
    (hrc : (env.run (fetch_list_cmd env p)).1 = 0) :
    (∀ o, lookup_ceph_initial_entities env ((env.run (fetch_list_cmd env p)).2.1) =
        .error o →
      run_module env p = (o, pre_trace p ++ [fetch_list_cmd env p])) ∧
    (lookup_ceph_initial_entities env ((env.run (fetch_list_cmd env p)).2.1) =
        .ok none →
      run_module env p =
        (.failed "Failed to find some of the initial entities" 1 none,
          pre_trace p ++ [fetch_list_cmd env p])) ∧
    (∀ es, lookup_ceph_initial_entities env ((env.run (fetch_list_cmd env p)).2.1) =
        .ok (some es) →
      es.length = CEPH_INITIAL_KEYS.length ∧ ∀ s ∈ es, s ∈ CEPH_INITIAL_KEYS) := by
  refine ⟨?_, ?_, ?_⟩
  · intro o hlk
    simp only [fetch_list_cmd] at hrc hlk
    cases hik : p.importKey with
    | false =>
      rw [run_module_noimport env p hik]
      simp [dispatch, hs, list_keys, exec_single, hrc, hlk, pre_trace, hik,
        fetch_list_cmd]
    | true =>
      rw [run_module_import env p hik]
      simp [dispatch, hs, list_keys, exec_single, hrc, hlk, pre_trace, hik,
        fetch_list_cmd]
  · intro hlk
    simp only [fetch_list_cmd] at hrc hlk
    cases hik : p.importKey with
    | false =>
      rw [run_module_noimport env p hik]
      simp [dispatch, hs, list_keys, exec_single, hrc, hlk, pre_trace, hik,
        fetch_list_cmd, fatal]
    | true =>
      rw [run_module_import env p hik]
      simp [dispatch, hs, list_keys, exec_single, hrc, hlk, pre_trace, hik,
        fetch_list_cmd, fatal]
  · intro es hlk
    exact lookup_ok_some env _ es hlk

/-- C5 witness: when the listing output does not parse as JSON, the run
aborts with the `module` `NameError` having executed only the listing
command. -/
theorem c5_witness :
    run_module envBadJson pFetch =
      (.raised (.nameError "module"),
        pre_trace pFetch ++ [fetch_list_cmd envBadJson pFetch]) :=
  (c5_fetch_lookup_amended envBadJson pFetch rfl rfl).1
    (.raised (.nameError "module")) rfl

/-- C5 counterexample: a listing whose `auth_dump` holds seven entries all
naming `client.admin` passes the lookup (seven matching entries, counted
with multiplicity) even though the seven fixed names are not all present
(`client.bootstrap-mds` is missing), and the operation proceeds and exits
successfully instead of failing fatally, contrary to the claim. -/
theorem c5_counterexample :
    lookup_ceph_initial_entities envDup
        ((envDup.run (fetch_list_cmd envDup pFetch)).2.1) =
      .ok (some (List.replicate 7 "client.admin")) ∧
    "client.bootstrap-mds" ∉ List.replicate 7 "client.admin" ∧
    run_module envDup pFetch =
      (.exited
        { changed := true, stdout := "LISTOUT", stderr := "", rc := some 0,
          cmd := some (fetch_list_cmd envDup pFetch) },
        [fetch_list_cmd envDup pFetch]) := by
  refine ⟨rfl, by decide, by decide⟩

end CephKey

